import Mathlib

set_option maxRecDepth 10000

/-!
Shallow embedding of the transaction classification engine of the
telegram-base-tracker repository (src/tokenUtils.js), together with proofs
of the specified properties: token metadata resolution with memoization,
transfer-log decoding, swap/buy/sell classification, transaction analysis
and summary formatting.

Stateful JavaScript (the token-info cache on the TokenUtils instance, and
the count of collaborator reads that tests observe) is embedded by explicit
state passing through a ResolverState value.  Fallible reads from the
network provider are embedded as Except / Option results.  JavaScript
BigInt values (always non-negative here) are embedded as Nat.
-/

namespace BaseTracker

/-- Token metadata record built by getTokenInfo (address, symbol, name,
decimals), mirroring the tokenInfo object of src/tokenUtils.js. -/
structure TokenInfo where
  address : String
  symbol : String
  name : String
  decimals : Nat
deriving DecidableEq

/-- One receipt log entry as consumed by parseTransferEvents:
emitting contract address, topics list and data payload (hex string). -/
structure Log where
  address : String
  topics : List String
  data : String
deriving DecidableEq

/-- Transaction receipt: logs in emission order, status flag (1 = success)
and gas used. -/
structure Receipt where
  logs : List Log
  status : Nat
  gasUsed : Nat
deriving DecidableEq

/-- The transaction fields the engine reads: destination address
(tx.to, possibly null) and attached native value (tx.value, in wei). -/
structure Transaction where
  «to» : Option String
  value : Nat
deriving DecidableEq

/-- Decoded ERC-20 transfer event, mirroring the object pushed by
parseTransferEvents. -/
structure Transfer where
  tokenAddress : String
  tokenSymbol : String
  tokenName : String
  decimals : Nat
  «from» : String
  «to» : String
  value : Nat
  valueFormatted : String
deriving DecidableEq, Inhabited

/-- The read collaborators behind a token contract: whether the contract
handle can be constructed for the address at all (the ethers.Contract
constructor), and the three independently fallible metadata reads
symbol / name / decimals. -/
structure Chain where
  validAddress : String → Bool
  readSymbol : String → Option String
  readName : String → Option String
  readDecimals : String → Option Nat

/-- Mutable state of a TokenUtils instance: the token-info cache keyed by
lowercased address, plus a count of metadata reads issued to the chain
(the call-count a test observes on the collaborator). -/
structure ResolverState where
  tokenCache : List (String × TokenInfo)
  readCount : Nat
deriving DecidableEq

/-- Empty resolver state: fresh TokenUtils instance, no reads issued. -/
def st0 : ResolverState := { tokenCache := [], readCount := 0 }

/-- JS toLowerCase on the ASCII strings handled here, character-wise. -/
def lowerStr (s : String) : String := String.mk (s.data.map Char.toLower)

/-- Whether p is a leading piece of s (character-wise). -/
def strStarts (s p : String) : Bool := s.data.take p.length == p.data

/-- getTokenInfo of src/tokenUtils.js: serve from the cache when the
lowercased address is present; otherwise construct the contract handle and
issue the three metadata reads, each falling back to its sentinel value on
failure, cache the result under the lowercased address and return it.
When the contract handle itself cannot be constructed (the outer catch),
return the sentinel record without touching the cache and without any
metadata read having been issued. -/
def getTokenInfo (chain : Chain) (tokenAddress : String) (st : ResolverState) :
    TokenInfo × ResolverState :=
  match st.tokenCache.lookup (lowerStr tokenAddress) with
  | some info => (info, st)
  | none =>
    if chain.validAddress tokenAddress then
      let symbol := (chain.readSymbol tokenAddress).getD "UNKNOWN"
      let name := (chain.readName tokenAddress).getD "Unknown Token"
      let decimals := (chain.readDecimals tokenAddress).getD 18
      let info : TokenInfo :=
        { address := tokenAddress, symbol := symbol, name := name, decimals := decimals }
      (info, { tokenCache := (lowerStr tokenAddress, info) :: st.tokenCache,
               readCount := st.readCount + 3 })
    else
      ({ address := tokenAddress, symbol := "UNKNOWN", name := "Unknown Token",
         decimals := 18 }, st)

/-- Hex digit test (0-9, a-f, A-F). -/
def isHexDigit (c : Char) : Bool :=
  c.isDigit || ('a' ≤ c && c ≤ 'f') || ('A' ≤ c && c ≤ 'F')

/-- Numeric value of one hex digit. -/
def hexDigitVal (c : Char) : Nat :=
  if c.isDigit then c.toNat - '0'.toNat
  else if 'a' ≤ c && c ≤ 'f' then c.toNat - 'a'.toNat + 10
  else c.toNat - 'A'.toNat + 10

/-- Value of a hex digit string. -/
def hexToNat (s : String) : Nat :=
  s.data.foldl (fun acc c => acc * 16 + hexDigitVal c) 0

/-- Value of a decimal digit string. -/
def decToNat (s : String) : Nat :=
  s.data.foldl (fun acc c => acc * 10 + (c.toNat - '0'.toNat)) 0

/-- Model of the JavaScript BigInt(string) conversion on the inputs that
occur as log data payloads: the empty string converts to 0, a 0x-prefixed
string needs at least one hex digit after the prefix (BigInt of the bare
string 0x throws), a plain digit string is read as decimal; anything else
throws, modelled as none.  (Binary and octal prefixes, surrounding
whitespace and negative signs never occur in receipt data and are not
modelled.) -/
def bigIntOfString (s : String) : Option Nat :=
  if s == "" then some 0
  else if strStarts s "0x" then
    let hex := s.drop 2
    if hex != "" && hex.data.all isHexDigit then some (hexToNat hex) else none
  else if s.data.all Char.isDigit then some (decToNat s) else none

/-- Model of ethers.getAddress: succeeds on a well-formed 20-byte hex
address, i.e. 0x followed by 40 hex digits whose letters are all lowercase
or all uppercase (the forms ethers accepts without checksum validation;
receipt topics are lowercase hex).  The checksummed rendering of the
output is not modelled and the address is returned unchanged: every
downstream comparison lowercases both sides, so this is observationally
equivalent.  Malformed input throws, modelled as none. -/
def getAddress (s : String) : Option String :=
  let body := s.drop 2
  if strStarts s "0x" && body.length == 40 && body.data.all isHexDigit
      && (body.data.all (fun c => !('A' ≤ c && c ≤ 'F'))
          || body.data.all (fun c => !('a' ≤ c && c ≤ 'f'))) then
    some s
  else none

/-- Keccak-256 hash of the string Transfer(address,address,uint256), the
well-known ERC-20 transfer event signature (ethers.id of that string). -/
def transferTopic : String :=
  "0xddf252ad1be2c89b69c2b068fc378daa952ba7f163c4a11628f55a4df523b3ef"

/-- Drop trailing zero characters from a digit list. -/
def trimTrailingZeros (l : List Char) : List Char :=
  (l.reverse.dropWhile (fun c => c == '0')).reverse

/-- Model of ethers.formatUnits (the FixedNumber decimal rendering) on
non-negative values, by its arithmetic characterization: with zero
decimals the value is rendered as a plain integer; otherwise the integer
component value / 10 ^ decimals is rendered, then a decimal point, then
the fractional component value % 10 ^ decimals left-padded with zeros to
the full width, with trailing zeros trimmed but at least one fractional
digit kept.  This is exact integer arithmetic, as in ethers, with no
floating point. -/
def formatUnits (value : Nat) (decimals : Nat) : String :=
  let whole := value / 10 ^ decimals
  let fracNum := value % 10 ^ decimals
  if decimals == 0 then toString whole
  else
    let fracStr := toString fracNum
    let padded := List.replicate (decimals - fracStr.length) '0' ++ fracStr.data
    let trimmed := trimTrailingZeros padded
    toString whole ++ "." ++ (if trimmed.isEmpty then "0" else String.mk trimmed)

/-- ethers.formatEther: formatUnits with 18 decimals. -/
def formatEther (value : Nat) : String := formatUnits value 18

/-- The exact rational value denoted by the decimal rendering of
formatUnits: integer component plus fractional component over the decimal
scale. -/
def formatUnitsQ (value : Nat) (decimals : Nat) : ℚ :=
  ((value / 10 ^ decimals : Nat) : ℚ) + ((value % 10 ^ decimals : Nat) : ℚ) / (10 : ℚ) ^ decimals

/-- The state-independent core of decoding one log inside
parseTransferEvents: the log is recognized when its first topic equals the
transfer signature; then the sender and recipient are extracted from the
rightmost 40 hex characters of topics 1 and 2 and the raw value from the
data payload.  Any step that would throw in the source (missing topic,
malformed address, unparsable data) yields none, which the source
try/catch turns into skipping the log. -/
def decodeCore (log : Log) : Option (String × String × Nat) :=
  if log.topics.head? == some transferTopic then
    match log.topics[1]?, log.topics[2]? with
    | some t1, some t2 =>
      match getAddress ("0x" ++ t1.drop 26), getAddress ("0x" ++ t2.drop 26),
          bigIntOfString log.data with
      | some f, some t, some v => some (f, t, v)
      | _, _, _ => none
    | _, _ => none
  else none

/-- Decode one log into a Transfer, resolving the emitting token contract
via getTokenInfo; the resolver state threads through.  A log that fails to
decode leaves the state unchanged (the source throws before any token
lookup in that case). -/
def decodeTransferLog (chain : Chain) (log : Log) (st : ResolverState) :
    Option Transfer × ResolverState :=
  match decodeCore log with
  | none => (none, st)
  | some (f, t, v) =>
    let (info, st1) := getTokenInfo chain log.address st
    (some { tokenAddress := log.address, tokenSymbol := info.symbol,
            tokenName := info.name, decimals := info.decimals,
            «from» := f, «to» := t, value := v,
            valueFormatted := formatUnits v info.decimals }, st1)

/-- The loop of parseTransferEvents over a log list: decoded transfers are
appended in log-emission order, logs that do not decode are skipped. -/
def parseTransferEventsAux (chain : Chain) (logs : List Log) (st : ResolverState) :
    List Transfer × ResolverState :=
  match logs with
  | [] => ([], st)
  | log :: rest =>
    let (res, st1) := decodeTransferLog chain log st
    let (ts, st2) := parseTransferEventsAux chain rest st1
    match res with
    | some t => (t :: ts, st2)
    | none => (ts, st2)

/-- parseTransferEvents of src/tokenUtils.js: decode every transfer event
in the receipt logs. -/
def parseTransferEvents (chain : Chain) (receipt : Receipt) (st : ResolverState) :
    List Transfer × ResolverState :=
  parseTransferEventsAux chain receipt.logs st

/-- The static table of known DEX router addresses on Base
(KNOWN_DEX_ROUTERS of src/tokenUtils.js); keys are lowercase. -/
def KNOWN_DEX_ROUTERS : List (String × String) :=
  [("0x4752ba5dbc23f44d87826276bf6fd6b1c372ad24", "BaseSwap"),
   ("0x327df1e6de05895d2ab08513aadd9313fe505d86", "Aerodrome"),
   ("0x2626664c2603336e57b271c5c0b26f421741e481", "Uniswap V3 Router"),
   ("0xd0dbb1d0b0d4e0e482c1c1a6cf7e6a13b9a7e8c3", "SushiSwap"),
   ("0x1b81d678ffb9c0263b24a97847620c99d213eb14", "Balancer"),
   ("0x3fc91a3afd70395cd496c647d5a6cc9d4b2b7fad", "Uniswap Universal Router")]

/-- DEX name resolution of detectSwap: lowercase the transaction
destination when present and non-empty, look it up in the static router
table, and fall back to the generic label. -/
def dexNameOf (tx : Transaction) : String :=
  match tx.«to» with
  | none => "Unknown DEX"
  | some a =>
    let toAddress := lowerStr a
    if toAddress != "" then (KNOWN_DEX_ROUTERS.lookup toAddress).getD "Unknown DEX"
    else "Unknown DEX"

/-- The native-currency amount string attached to one-sided
classifications: formatEther of the transaction value when the value is
non-zero (truthy), the string 0 otherwise; the expression
tx.value ? ethers.formatEther(tx.value) : (quoted zero) of the source,
computed identically in the SELL and BUY branches. -/
def ethChangeOf (tx : Transaction) : String :=
  if tx.value != 0 then formatEther tx.value else "0"

/-- Classification result of detectSwap, as a record whose optional fields
mirror the duck-typed objects the source returns per category: a SWAP
carries tokenIn and tokenOut, a SELL carries tokenSold and ethReceived, a
BUY carries tokenBought and ethSpent; absent fields are none. -/
structure SwapResult where
  type : String
  dex : String
  tokenIn : Option Transfer := none
  tokenOut : Option Transfer := none
  tokenSold : Option Transfer := none
  tokenBought : Option Transfer := none
  ethReceived : Option String := none
  ethSpent : Option String := none
  allTransfers : List Transfer
deriving DecidableEq

/-- The classification logic of detectSwap after transfer decoding, on the
decoded transfer list: fewer than two transfers is not a trade; partition
into transfers sent from and received by the wallet, case-insensitively;
a wallet on neither side is not involved; both sides non-empty is a SWAP
on the first transfer of each side, only-sent is a SELL, only-received is
a BUY, with the native amount read from the transaction value. -/
def classifyTransfers (tx : Transaction) (transfers : List Transfer)
    (walletAddress : String) : Option SwapResult :=
  let walletLower := lowerStr walletAddress
  if transfers.length < 2 then none
  else
    let tokensSent := transfers.filter fun t => lowerStr t.«from» == walletLower
    let tokensReceived := transfers.filter fun t => lowerStr t.«to» == walletLower
    if tokensSent.length == 0 && tokensReceived.length == 0 then none
    else
      let dexName := dexNameOf tx
      match tokensSent, tokensReceived with
      | tIn :: _, tOut :: _ =>
        some { type := "SWAP", dex := dexName, tokenIn := some tIn,
               tokenOut := some tOut, allTransfers := transfers }
      | tSold :: _, [] =>
        some { type := "SELL", dex := dexName, tokenSold := some tSold,
               ethReceived := some (ethChangeOf tx), allTransfers := transfers }
      | [], tBought :: _ =>
        some { type := "BUY", dex := dexName, tokenBought := some tBought,
               ethSpent := some (ethChangeOf tx), allTransfers := transfers }
      | [], [] => none

/-- detectSwap of src/tokenUtils.js: decode the receipt logs, then apply
the classification logic to the decoded transfer list. -/
def detectSwap (chain : Chain) (tx : Transaction) (receipt : Receipt)
    (walletAddress : String) (st : ResolverState) :
    Option SwapResult × ResolverState :=
  let (transfers, st1) := parseTransferEvents chain receipt st
  (classifyTransfers tx transfers walletAddress, st1)

/-- The analysis object built by analyzeTransaction: the spread of the
detectSwap result together with the transaction hash, gas used and status
string. -/
structure TxAnalysis extends SwapResult where
  hash : String
  gasUsed : String
  status : String
deriving DecidableEq

/-- The provider collaborator as analyzeTransaction consumes it: fallible
transaction and receipt fetches (an error result models a rejected
promise, ok none models not-found), plus the token-read collaborators. -/
structure Provider where
  chain : Chain
  getTransaction : String → Except String (Option Transaction)
  getTransactionReceipt : String → Except String (Option Receipt)

/-- analyzeTransaction of src/tokenUtils.js: fetch the transaction and the
receipt; when either fetch fails (the catch) or either is missing, return
null; otherwise run detectSwap and, when it classifies the transaction,
return the analysis object, else null (not notifiable). -/
def analyzeTransaction (p : Provider) (txHash walletAddress : String)
    (st : ResolverState) : Option TxAnalysis × ResolverState :=
  match p.getTransaction txHash, p.getTransactionReceipt txHash with
  | .ok (some tx), .ok (some receipt) =>
    let (swapInfo, st1) := detectSwap p.chain tx receipt walletAddress st
    match swapInfo with
    | some info =>
      (some { toSwapResult := info, hash := txHash,
              gasUsed := toString receipt.gasUsed,
              status := if receipt.status == 1 then "Success" else "Failed" }, st1)
    | none => (none, st1)
  | _, _ => (none, st)

/-- Stand-in for the floating-point display arithmetic of the formatter
(parseFloat, multiplication by the fixed 3000 conversion rate, toFixed
rounding).  Floating point is not modelled; no claim constrains these
rendered digits, only which branch produces a string at all. -/
def jsNumberDisplay (s : String) : String := s

/-- The approximate-USD display string of the BUY and SELL branches: the
JS code parses the eth string unless it is the literal zero string (or
absent, when parseFloat of undefined is NaN) and renders an estimate,
falling back to the N/A label. -/
def usdValueOf (ethOpt : Option String) : String :=
  match ethOpt with
  | none => "N/A"
  | some s => if s == "0" then "N/A" else jsNumberDisplay s

/-- formatTransactionSummary of src/tokenUtils.js: a null analysis formats
to the fixed unable-to-analyze string; otherwise the summary is built per
category, and any category other than BUY, SELL and SWAP yields null (no
notification).  The variant fields the source reads in a branch are read
through getD on the optional field; the source only reaches a branch with
the matching fields populated. -/
def formatTransactionSummary (analysis : Option TxAnalysis)
    (walletAddress : Option String) : Option String :=
  match analysis with
  | none => some "Unable to analyze transaction"
  | some a =>
    let basescanLink := "https://basescan.org/tx/" ++ a.hash
    let shortWallet :=
      match walletAddress with
      | some w => if w != "" then w else "Wallet"
      | none => "Wallet"
    if a.type == "BUY" then
      let t := (a.tokenBought.getD default)
      some ("🟢 *BUY*\n\n" ++ "Wallet: `" ++ shortWallet ++ "`\n"
        ++ "Amount: $" ++ usdValueOf a.ethSpent ++ " USD\n"
        ++ "Token: " ++ t.tokenSymbol ++ "\n"
        ++ "Contract: `" ++ t.tokenAddress ++ "`\n\n"
        ++ "[BaseScan](" ++ basescanLink ++ ")")
    else if a.type == "SELL" then
      let t := (a.tokenSold.getD default)
      some ("🔴 *SELL*\n\n" ++ "Wallet: `" ++ shortWallet ++ "`\n"
        ++ "Amount: $" ++ usdValueOf a.ethReceived ++ " USD\n"
        ++ "Token: " ++ t.tokenSymbol ++ "\n"
        ++ "Contract: `" ++ t.tokenAddress ++ "`\n\n"
        ++ "[BaseScan](" ++ basescanLink ++ ")")
    else if a.type == "SWAP" then
      let tIn := (a.tokenIn.getD default)
      let tOut := (a.tokenOut.getD default)
      some ("🔄 *SWAP*\n\n" ++ "Wallet: `" ++ shortWallet ++ "`\n"
        ++ jsNumberDisplay tIn.valueFormatted ++ " " ++ tIn.tokenSymbol ++ " → "
        ++ jsNumberDisplay tOut.valueFormatted ++ " " ++ tOut.tokenSymbol ++ "\n\n"
        ++ "Contract: `" ++ tOut.tokenAddress ++ "`\n\n"
        ++ "[BaseScan](" ++ basescanLink ++ ")")
    else none

/-! Concrete fixtures used by witnesses and counterexamples. -/

/-- A chain on which every address yields a contract handle but all three
metadata reads fail, so resolution falls back to the sentinel values. -/
def chain0 : Chain :=
  { validAddress := fun _ => true, readSymbol := fun _ => none,
    readName := fun _ => none, readDecimals := fun _ => none }

/-- Concrete wallet address. -/
def walletA : String := "0xaaaaaaaaaaaaaaaaaaaaaaaaaaaaaaaaaaaaaaaa"

/-- Concrete counterparty address (the BaseSwap router). -/
def routerB : String := "0x4752ba5dbc23f44d87826276bf6fd6b1c372ad24"

/-- walletA as an indexed-topic slot (left-padded to 32 bytes). -/
def topicOfA : String :=
  "0x000000000000000000000000aaaaaaaaaaaaaaaaaaaaaaaaaaaaaaaaaaaaaaaa"

/-- routerB as an indexed-topic slot (left-padded to 32 bytes). -/
def topicOfB : String :=
  "0x0000000000000000000000004752ba5dbc23f44d87826276bf6fd6b1c372ad24"

/-- A well-formed transfer log: one token unit (10 ^ 18 raw) from walletA
to routerB. -/
def logAtoB : Log :=
  { address := "0xcccccccccccccccccccccccccccccccccccccccc",
    topics := [transferTopic, topicOfA, topicOfB],
    data := "0x0de0b6b3a7640000" }

/-- A well-formed transfer log: 500000000 raw units from routerB to
walletA, on a second token. -/
def logBtoA : Log :=
  { address := "0xdddddddddddddddddddddddddddddddddddddddd",
    topics := [transferTopic, topicOfB, topicOfA],
    data := "0x1dcd6500" }

/-- A log whose first topic is the transfer signature but which carries no
indexed topics at all, so decoding it throws in the source and it is
skipped; it still matches the signature. -/
def malformedTransferLog : Log :=
  { address := "0xeeeeeeeeeeeeeeeeeeeeeeeeeeeeeeeeeeeeeeee",
    topics := [transferTopic],
    data := "0x" }

/-- A concrete transaction directed at the BaseSwap router with no native
value attached. -/
def txToRouter : Transaction := { «to» := some routerB, value := 0 }

/-- A duck-typed analysis value with a non-actionable category. -/
def transferAnalysis : TxAnalysis :=
  { type := "TRANSFER", dex := "Unknown DEX", allTransfers := [],
    hash := "0x1234", gasUsed := "21000", status := "Success" }

/-- A provider whose transaction fetch fails with a network error. -/
def failingProvider : Provider :=
  { chain := chain0,
    getTransaction := fun _ => .error "network failure",
    getTransactionReceipt := fun _ => .ok none }

/-- A receipt with no logs at all. -/
def quietReceipt : Receipt := { logs := [], status := 1, gasUsed := 21000 }

/-- A provider on which the transaction and receipt are found, but the
receipt carries no transfer events, so the transaction is found yet not
notifiable. -/
def quietProvider : Provider :=
  { chain := chain0,
    getTransaction := fun _ => .ok (some txToRouter),
    getTransactionReceipt := fun _ => .ok (some quietReceipt) }

/-- A log carrying a non-transfer event signature (an Approval). -/
def approvalLog : Log :=
  { address := "0xcccccccccccccccccccccccccccccccccccccccc",
    topics := ["0x8c5be1e5ebec7d5bd14f71427d1e84f3dd0314c0f7b2291e5b200ac8c7c3b925",
               topicOfA, topicOfB],
    data := "0x0de0b6b3a7640000" }

/-- The from-address, to-address and raw-value triple of a decoded
transfer: the projection of a Transfer that does not depend on token
metadata resolution. -/
def transferCore (t : Transfer) : String × String × Nat := (t.«from», t.«to», t.value)

/-- A concrete transfer sent from walletA. -/
def tSent : Transfer :=
  { tokenAddress := "0xcccccccccccccccccccccccccccccccccccccccc",
    tokenSymbol := "UNKNOWN", tokenName := "Unknown Token", decimals := 18,
    «from» := walletA, «to» := routerB,
    value := 1000000000000000000, valueFormatted := "1.0" }

/-- A concrete transfer received by walletA. -/
def tRecv : Transfer :=
  { tokenAddress := "0xdddddddddddddddddddddddddddddddddddddddd",
    tokenSymbol := "UNKNOWN", tokenName := "Unknown Token", decimals := 18,
    «from» := routerB, «to» := walletA,
    value := 500000000, valueFormatted := "0.0000000005" }

/-- A second concrete transfer sent from walletA, on another token. -/
def tSent2 : Transfer :=
  { tokenAddress := "0xdddddddddddddddddddddddddddddddddddddddd",
    tokenSymbol := "UNKNOWN", tokenName := "Unknown Token", decimals := 18,
    «from» := walletA, «to» := routerB,
    value := 42, valueFormatted := "0.000000000000000042" }

/-- A second concrete transfer received by walletA, on another token. -/
def tRecv2 : Transfer :=
  { tokenAddress := "0xcccccccccccccccccccccccccccccccccccccccc",
    tokenSymbol := "UNKNOWN", tokenName := "Unknown Token", decimals := 18,
    «from» := routerB, «to» := walletA,
    value := 7, valueFormatted := "0.000000000000000007" }

/-- tSent with a different raw amount, all other fields unchanged. -/
def tSentBig : Transfer := { tSent with value := 999, valueFormatted := "0.000000000000000999" }

/-- tRecv with a different raw amount, all other fields unchanged. -/
def tRecvBig : Transfer := { tRecv with value := 1, valueFormatted := "0.000000000000000001" }

/-- Two transfers agree on everything except the raw amount they carry:
same token identity and metadata, same sender and same recipient. -/
def sameButAmount (a b : Transfer) : Prop :=
  a.tokenAddress = b.tokenAddress ∧ a.tokenSymbol = b.tokenSymbol
  ∧ a.tokenName = b.tokenName ∧ a.decimals = b.decimals
  ∧ a.«from» = b.«from» ∧ a.«to» = b.«to»

/-! Theorems. -/

/-- C7: resolving the same token address twice returns identical TokenInfo
and leaves the resolver state of the first call unchanged, so in
particular the second call issues no additional read of the
symbol / name / decimals collaborators; this holds for every chain,
including chains on which every read fails and the first resolution fell
back to the sentinel values. -/
theorem getTokenInfo_memoized (chain : Chain) (addr : String) (st : ResolverState) :
    (getTokenInfo chain addr (getTokenInfo chain addr st).2).1
        = (getTokenInfo chain addr st).1
    ∧ (getTokenInfo chain addr (getTokenInfo chain addr st).2).2
        = (getTokenInfo chain addr st).2
    ∧ (getTokenInfo chain addr (getTokenInfo chain addr st).2).2.readCount
        = (getTokenInfo chain addr st).2.readCount := by
  rcases h : st.tokenCache.lookup (lowerStr addr) with _ | info
  · by_cases hv : chain.validAddress addr
    · simp [getTokenInfo, h, hv, List.lookup]
    · simp [getTokenInfo, h, hv]
  · simp [getTokenInfo, h]

/-- C3: whenever the decoded transfer list of a receipt has fewer than two
elements, detectSwap classifies the transaction as NONE (returns null),
regardless of whether the wallet is a party to a remaining transfer. -/
theorem detectSwap_few_transfers (chain : Chain) (tx : Transaction)
    (receipt : Receipt) (wallet : String) (st : ResolverState)
    (h : (parseTransferEvents chain receipt st).1.length < 2) :
    (detectSwap chain tx receipt wallet st).1 = none := by
  simp [detectSwap, classifyTransfers, h]

/-- C3 witness: a receipt with exactly one decoded transfer, sent by the
wallet itself, still classifies as NONE. -/
theorem detectSwap_few_transfers_witness :
    (detectSwap chain0 txToRouter
        { logs := [logAtoB], status := 1, gasUsed := 21000 } walletA st0).1 = none :=
  detectSwap_few_transfers chain0 txToRouter
    { logs := [logAtoB], status := 1, gasUsed := 21000 } walletA st0 (by decide)

/-- C2: the summary formatter maps every non-null analysis whose type is
neither BUY, SELL nor SWAP to null, the no-notification signal. -/
theorem formatSummary_nonActionable (a : TxAnalysis) (w : Option String)
    (h1 : a.type ≠ "BUY") (h2 : a.type ≠ "SELL") (h3 : a.type ≠ "SWAP") :
    formatTransactionSummary (some a) w = none := by
  simp [formatTransactionSummary, h1, h2, h3]

/-- C2 witness: a TRANSFER-typed analysis formats to null. -/
theorem formatSummary_nonActionable_witness :
    formatTransactionSummary (some transferAnalysis) none = none :=
  formatSummary_nonActionable transferAnalysis none
    (by decide) (by decide) (by decide)

/-- C10: a null analysis formats to the non-null string of the source, and
the null no-notification signal is only ever produced for a non-null
analysis whose type is outside BUY, SELL and SWAP — never for a missing
analysis. -/
theorem formatSummary_null_analysis :
    (∀ w, formatTransactionSummary none w = some "Unable to analyze transaction")
    ∧ ∀ aOpt w, formatTransactionSummary aOpt w = none →
        ∃ a, aOpt = some a ∧ a.type ≠ "BUY" ∧ a.type ≠ "SELL" ∧ a.type ≠ "SWAP" := by
  constructor
  · intro w; rfl
  · intro aOpt w h
    match aOpt with
    | none => simp [formatTransactionSummary] at h
    | some a =>
      refine ⟨a, rfl, ?_, ?_, ?_⟩ <;> intro hty <;>
        simp [formatTransactionSummary, hty] at h

/-- C1 (amended): whenever fetching the transaction or the receipt fails,
or either of them is not found, analyzeTransaction returns null — the very
same value it returns for a found but non-notifiable transaction, so the
return value does not let a caller tell the cases apart. -/
theorem analyze_failure_returns_null (p : Provider) (h w : String)
    (st : ResolverState)
    (hfail : (∃ e, p.getTransaction h = .error e)
      ∨ (∃ e, p.getTransactionReceipt h = .error e)
      ∨ p.getTransaction h = .ok none
      ∨ p.getTransactionReceipt h = .ok none) :
    (analyzeTransaction p h w st).1 = none := by
  unfold analyzeTransaction
  rcases hfail with ⟨e, he⟩ | ⟨e, he⟩ | he | he
  · rw [he]
  · rcases hx : p.getTransaction h with e1 | otx
    · rfl
    · rcases otx with _ | tx
      · rfl
      · rw [he]
  · rw [he]
  · rcases hx : p.getTransaction h with e1 | otx
    · rfl
    · rcases otx with _ | tx
      · rfl
      · rw [he]

/-- C1 counterexample: at a concrete transaction hash, a provider whose
transaction fetch fails makes analyzeTransaction return null — exactly
the outcome it returns when the transaction is found but carries nothing
to report — so the failure outcome is not distinct from the NONE outcome. -/
theorem analyze_failure_counterexample :
    (analyzeTransaction failingProvider "0x1234" walletA st0).1 = none
    ∧ (analyzeTransaction quietProvider "0x1234" walletA st0).1 = none :=
  ⟨rfl, rfl⟩

/-- C1 witness: the amended theorem applied to a concrete failing
provider. -/
theorem analyze_failure_returns_null_witness :
    (analyzeTransaction failingProvider "0xaaaa" walletA st0).1 = none :=
  analyze_failure_returns_null failingProvider "0xaaaa" walletA st0
    (Or.inl ⟨"network failure", rfl⟩)

/-- The from, to and value triple produced by decoding one log does not
depend on the resolver state and equals the state-independent core
decoding. -/
theorem decodeTransferLog_core (chain : Chain) (log : Log) (st : ResolverState) :
    Option.map transferCore (decodeTransferLog chain log st).1 = decodeCore log := by
  rcases hd : decodeCore log with _ | ⟨f, t, v⟩ <;>
    simp [decodeTransferLog, hd, transferCore]

/-- Transfers are decoded in log-emission order: the from, to and value
triples of the output are exactly the successful core decodings of the
logs, in order. -/
theorem parseAux_core (chain : Chain) (logs : List Log) :
    ∀ st : ResolverState,
      (parseTransferEventsAux chain logs st).1.map transferCore
        = logs.filterMap decodeCore := by
  induction logs with
  | nil => intro st; rfl
  | cons log rest ih =>
    intro st
    rcases hD : decodeTransferLog chain log st with ⟨res, st1⟩
    have hcore : Option.map transferCore res = decodeCore log := by
      rw [← decodeTransferLog_core chain log st, hD]
    rcases hP : parseTransferEventsAux chain rest st1 with ⟨ts, st2⟩
    have hts : ts.map transferCore = rest.filterMap decodeCore := by
      rw [← ih st1, hP]
    rcases res with _ | t
    · simp only [Option.map_none] at hcore
      simp [parseTransferEventsAux, hD, hP, List.filterMap_cons, ← hcore, hts]
    · simp only [Option.map_some] at hcore
      simp [parseTransferEventsAux, hD, hP, List.filterMap_cons, ← hcore, hts]

/-- The number of successful core decodings among the logs. -/
theorem length_filterMap_decode (logs : List Log) :
    (logs.filterMap decodeCore).length
      = (logs.filter (fun l => (decodeCore l).isSome)).length := by
  induction logs with
  | nil => rfl
  | cons l rest ih =>
    rcases hd : decodeCore l with _ | c <;>
      simp [List.filterMap_cons, List.filter_cons, hd, ih]

/-- C6 (amended): transfer decoding is total (never raises); its output
lists, in log-emission order, the from, to and value triples of exactly
those logs that both match the transfer signature and decode successfully,
so its length equals the number of such logs; and every log whose first
topic differs from the transfer signature is skipped (its core decoding is
none), as is every matching log with malformed topics or data. -/
theorem parseTransferEvents_decoding (chain : Chain) (receipt : Receipt)
    (st : ResolverState) :
    ((parseTransferEvents chain receipt st).1.map transferCore
        = receipt.logs.filterMap decodeCore)
    ∧ (parseTransferEvents chain receipt st).1.length
        = (receipt.logs.filter (fun l => (decodeCore l).isSome)).length
    ∧ ∀ l : Log, l.topics.head? ≠ some transferTopic → decodeCore l = none := by
  refine ⟨parseAux_core chain receipt.logs st, ?_, ?_⟩
  · have hm := parseAux_core chain receipt.logs st
    have h2 : (parseTransferEvents chain receipt st).1.length
        = (receipt.logs.filterMap decodeCore).length := by
      unfold parseTransferEvents
      rw [← hm, List.length_map]
    rw [h2, length_filterMap_decode]
  · intro l hl
    have : (l.topics.head? == some transferTopic) = false := by
      simpa using hl
    simp [decodeCore, this]

/-- C6 counterexample: a log whose first topic is the transfer signature
but which carries no indexed topics is skipped (decoding it would raise in
the source), so the output length, zero, differs from the number of logs
matching the signature, one. -/
theorem parse_length_counterexample :
    (parseTransferEvents chain0
        { logs := [malformedTransferLog], status := 1, gasUsed := 0 } st0).1.length = 0
    ∧ ([malformedTransferLog].filter
        (fun l => l.topics.head? == some transferTopic)).length = 1 :=
  ⟨rfl, rfl⟩

/-- C6 witness: the amended theorem applied to a concrete receipt holding
one well-formed transfer log and one approval log, and the skip clause
applied to the approval log. -/
theorem parseTransferEvents_decoding_witness :
    ((parseTransferEvents chain0
        { logs := [logAtoB, approvalLog], status := 1, gasUsed := 0 } st0).1.length
      = ([logAtoB, approvalLog].filter (fun l => (decodeCore l).isSome)).length)
    ∧ decodeCore approvalLog = none :=
  ⟨(parseTransferEvents_decoding chain0
      { logs := [logAtoB, approvalLog], status := 1, gasUsed := 0 } st0).2.1,
   (parseTransferEvents_decoding chain0
      { logs := [], status := 1, gasUsed := 0 } st0).2.2 approvalLog (by decide)⟩

/-- C10 witness: the null-analysis output at a concrete call, and the
only-if direction instantiated at a concrete non-actionable analysis. -/
theorem formatSummary_null_analysis_witness :
    formatTransactionSummary (none : Option TxAnalysis) none
        = some "Unable to analyze transaction"
    ∧ ∃ a, (some transferAnalysis : Option TxAnalysis) = some a
        ∧ a.type ≠ "BUY" ∧ a.type ≠ "SELL" ∧ a.type ≠ "SWAP" :=
  ⟨formatSummary_null_analysis.1 none,
   formatSummary_null_analysis.2 (some transferAnalysis) none (by decide)⟩

/-- C4: on at least two decoded transfers, when the wallet both sent and
received tokens, the classifier yields a SWAP whose tokenIn is the first
transfer sent from the wallet and whose tokenOut is the first transfer
received by it, both in log-emission order (the decoded list and hence its
filtered sublists are in log order). -/
theorem classify_both_sides_swap (tx : Transaction) (ts : List Transfer)
    (wallet : String) (h2 : 2 ≤ ts.length)
    (hs : ts.filter (fun t => lowerStr t.«from» == lowerStr wallet) ≠ [])
    (hr : ts.filter (fun t => lowerStr t.«to» == lowerStr wallet) ≠ []) :
    classifyTransfers tx ts wallet
      = some
        { type := "SWAP", dex := dexNameOf tx,
          tokenIn := (ts.filter (fun t => lowerStr t.«from» == lowerStr wallet)).head?,
          tokenOut := (ts.filter (fun t => lowerStr t.«to» == lowerStr wallet)).head?,
          allTransfers := ts } := by
  obtain ⟨s, ss, hs'⟩ := List.exists_cons_of_ne_nil hs
  obtain ⟨r, rs, hr'⟩ := List.exists_cons_of_ne_nil hr
  have hlt : ¬ ts.length < 2 := by omega
  simp [classifyTransfers, hlt, hs', hr']

/-- C4 witness: one transfer out of and one into the wallet classify as a
SWAP on that pair. -/
theorem classify_both_sides_swap_witness :
    classifyTransfers txToRouter [tSent, tRecv] walletA
      = some
        { type := "SWAP", dex := dexNameOf txToRouter,
          tokenIn := ([tSent, tRecv].filter
            (fun t => lowerStr t.«from» == lowerStr walletA)).head?,
          tokenOut := ([tSent, tRecv].filter
            (fun t => lowerStr t.«to» == lowerStr walletA)).head?,
          allTransfers := [tSent, tRecv] } :=
  classify_both_sides_swap txToRouter [tSent, tRecv] walletA
    (by decide) (by decide) (by decide)

/-- C5: on at least two decoded transfers with the wallet on exactly one
side, the classifier yields a SELL on the first sent transfer with the
native amount read from the transaction value field when only sent
transfers exist, and a BUY on the first received transfer with the native
amount read from the transaction value field when only received transfers
exist. -/
theorem classify_one_sided (tx : Transaction) (ts : List Transfer)
    (wallet : String) (h2 : 2 ≤ ts.length) :
    (ts.filter (fun t => lowerStr t.«to» == lowerStr wallet) = [] →
      ts.filter (fun t => lowerStr t.«from» == lowerStr wallet) ≠ [] →
      classifyTransfers tx ts wallet
        = some
          { type := "SELL", dex := dexNameOf tx,
            tokenSold := (ts.filter
              (fun t => lowerStr t.«from» == lowerStr wallet)).head?,
            ethReceived := some (ethChangeOf tx), allTransfers := ts })
    ∧ (ts.filter (fun t => lowerStr t.«from» == lowerStr wallet) = [] →
      ts.filter (fun t => lowerStr t.«to» == lowerStr wallet) ≠ [] →
      classifyTransfers tx ts wallet
        = some
          { type := "BUY", dex := dexNameOf tx,
            tokenBought := (ts.filter
              (fun t => lowerStr t.«to» == lowerStr wallet)).head?,
            ethSpent := some (ethChangeOf tx), allTransfers := ts }) := by
  have hlt : ¬ ts.length < 2 := by omega
  constructor
  · intro hre hs
    obtain ⟨s, ss, hs'⟩ := List.exists_cons_of_ne_nil hs
    simp [classifyTransfers, hlt, hre, hs']
  · intro hse hr
    obtain ⟨r, rs, hr'⟩ := List.exists_cons_of_ne_nil hr
    simp [classifyTransfers, hlt, hse, hr']

/-- C5 witness: two only-sent transfers classify as a SELL on the first
sent transfer, and two only-received transfers classify as a BUY on the
first received transfer, with the native amount from the transaction value
in both cases. -/
theorem classify_one_sided_witness :
    classifyTransfers txToRouter [tSent, tSent2] walletA
      = some
        { type := "SELL", dex := dexNameOf txToRouter,
          tokenSold := ([tSent, tSent2].filter
            (fun t => lowerStr t.«from» == lowerStr walletA)).head?,
          ethReceived := some (ethChangeOf txToRouter),
          allTransfers := [tSent, tSent2] }
    ∧ classifyTransfers txToRouter [tRecv, tRecv2] walletA
      = some
        { type := "BUY", dex := dexNameOf txToRouter,
          tokenBought := ([tRecv, tRecv2].filter
            (fun t => lowerStr t.«to» == lowerStr walletA)).head?,
          ethSpent := some (ethChangeOf txToRouter),
          allTransfers := [tRecv, tRecv2] } :=
  ⟨(classify_one_sided txToRouter [tSent, tSent2] walletA (by decide)).1
      (by decide) (by decide),
   (classify_one_sided txToRouter [tRecv, tRecv2] walletA (by decide)).2
      (by decide) (by decide)⟩

/-- Dropping leading zero characters from an all-zero list empties it. -/
theorem dropWhile_zeros (n : Nat) :
    List.dropWhile (fun c => c == '0') (List.replicate n '0') = [] := by
  induction n with
  | zero => rfl
  | succ n ih => rw [List.replicate_succ]; simp [List.dropWhile, ih]

/-- Trimming an all-zero fractional part empties it. -/
theorem trim_replicate_zeros (n : Nat) :
    trimTrailingZeros (List.replicate n '0') = [] := by
  simp [trimTrailingZeros, List.reverse_replicate, dropWhile_zeros]

/-- With a positive number of decimals, a raw amount that is an exact
multiple of the decimal scale renders as the multiplier followed by a
single zero fractional digit. -/
theorem formatUnits_mul_pow (k d : Nat) (hd : d ≠ 0) :
    formatUnits (10 ^ d * k) d = toString k ++ ".0" := by
  have hpos : 0 < 10 ^ d := pow_pos (by norm_num) d
  have h1 : 10 ^ d * k / 10 ^ d = k := Nat.mul_div_cancel_left k hpos
  have h2 : 10 ^ d * k % 10 ^ d = 0 := Nat.mul_mod_right _ _
  have hts : toString (0 : Nat) = "0" := rfl
  have hpad : List.replicate (d - ("0" : String).length) '0' ++ ("0" : String).data
      = List.replicate d '0' := by
    have hd10 : ("0" : String).data = ['0'] := rfl
    have hl0 : ("0" : String).length = 1 := rfl
    have hd1 : d - 1 + 1 = d := by omega
    rw [hd10, hl0, ← List.replicate_succ' (d - 1) '0', hd1]
  have key : formatUnits (10 ^ d * k) d = toString k ++ "." ++ "0" := by
    unfold formatUnits
    simp only [h1, h2]
    rw [hts, hpad, trim_replicate_zeros]
    simp [hd]
  rw [key, String.append_assoc]
  rfl

/-- With zero decimals, an exact multiple renders as the plain integer. -/
theorem formatUnits_zero_dec (k : Nat) : formatUnits (10 ^ 0 * k) 0 = toString k := by
  simp [formatUnits]

/-- The exact rational value of the rendered decimal of an exact multiple
of the scale is the multiplier itself. -/
theorem formatUnitsQ_mul_pow (k d : Nat) : formatUnitsQ (10 ^ d * k) d = (k : ℚ) := by
  have hpos : 0 < 10 ^ d := pow_pos (by norm_num) d
  have h1 : 10 ^ d * k / 10 ^ d = k := Nat.mul_div_cancel_left k hpos
  have h2 : 10 ^ d * k % 10 ^ d = 0 := Nat.mul_mod_right _ _
  simp [formatUnitsQ, h1, h2]

/-- C8: for decimals in 0, 6, 8 and 18, the scaled value rendered for a
raw amount 10 ^ decimals * k denotes exactly k — concretely the rendered
string is the decimal digits of k followed by a lone zero fractional digit
(or the plain digits when decimals is 0), with no floating-point drift,
because the rendering is exact integer arithmetic. -/
theorem formatUnits_scaled_exact (k d : Nat) (h : d = 0 ∨ d = 6 ∨ d = 8 ∨ d = 18) :
    formatUnitsQ (10 ^ d * k) d = (k : ℚ)
    ∧ (d ≠ 0 → formatUnits (10 ^ d * k) d = toString k ++ ".0")
    ∧ (d = 0 → formatUnits (10 ^ d * k) d = toString k) := by
  rcases h with rfl | rfl | rfl | rfl
  · exact ⟨formatUnitsQ_mul_pow k 0, fun hd => absurd rfl hd,
      fun _ => formatUnits_zero_dec k⟩
  · exact ⟨formatUnitsQ_mul_pow k 6, fun hd => formatUnits_mul_pow k 6 hd,
      fun h0 => absurd h0 (by norm_num)⟩
  · exact ⟨formatUnitsQ_mul_pow k 8, fun hd => formatUnits_mul_pow k 8 hd,
      fun h0 => absurd h0 (by norm_num)⟩
  · exact ⟨formatUnitsQ_mul_pow k 18, fun hd => formatUnits_mul_pow k 18 hd,
      fun h0 => absurd h0 (by norm_num)⟩

/-- C8 witness: seven whole tokens of a 6-decimals token (raw amount
7000000) denote exactly 7 and render as the string 7.0. -/
theorem formatUnits_scaled_exact_witness :
    formatUnitsQ 7000000 6 = (7 : ℚ) ∧ formatUnits 7000000 6 = "7.0" :=
  ⟨(formatUnits_scaled_exact 7 6 (Or.inr (Or.inl rfl))).1,
   (formatUnits_scaled_exact 7 6 (Or.inr (Or.inl rfl))).2.1 (by decide)⟩

/-- Filtering two pointwise-related lists by a predicate that the relation
preserves yields pointwise-related lists. -/
theorem forall2_filter_same {R : Transfer → Transfer → Prop} {p : Transfer → Bool}
    (hp : ∀ a b, R a b → p a = p b) :
    ∀ {l1 l2 : List Transfer}, List.Forall₂ R l1 l2 →
      List.Forall₂ R (l1.filter p) (l2.filter p) := by
  intro l1 l2 h
  induction h with
  | nil => exact .nil
  | @cons a b l1 l2 hab htail ih =>
    by_cases hpa : p a = true
    · have hpb : p b = true := by rw [← hp a b hab]; exact hpa
      simpa [List.filter_cons, hpa, hpb] using List.Forall₂.cons hab ih
    · have hpb : ¬ p b = true := by rw [← hp a b hab]; exact hpa
      simpa [List.filter_cons, hpa, hpb] using ih

/-- C9: two classifier inputs that agree on everything except the raw
amounts carried by the transfers classify into the same category: the
decision uses only the count of transfers and the direction of each
transfer relative to the wallet, never amounts. -/
theorem classify_ignores_amounts (tx : Transaction) (wallet : String)
    (ts1 ts2 : List Transfer) (h : List.Forall₂ sameButAmount ts1 ts2) :
    Option.map SwapResult.type (classifyTransfers tx ts1 wallet)
      = Option.map SwapResult.type (classifyTransfers tx ts2 wallet) := by
  have hlen := h.length_eq
  have hsent := forall2_filter_same
    (p := fun t => lowerStr t.«from» == lowerStr wallet)
    (fun a b hab => by simp only [hab.2.2.2.2.1]) h
  have hrecv := forall2_filter_same
    (p := fun t => lowerStr t.«to» == lowerStr wallet)
    (fun a b hab => by simp only [hab.2.2.2.2.2]) h
  by_cases hl : ts1.length < 2
  · have hl2 : ts2.length < 2 := by omega
    simp [classifyTransfers, hl, hl2]
  · have hl2 : ¬ ts2.length < 2 := by omega
    rcases hs1 : ts1.filter (fun t => lowerStr t.«from» == lowerStr wallet)
      with _ | ⟨s1, ss1⟩ <;>
    rcases hr1 : ts1.filter (fun t => lowerStr t.«to» == lowerStr wallet)
      with _ | ⟨r1, rs1⟩
    · have h2s := List.forall₂_nil_left_iff.mp (hs1 ▸ hsent)
      have h2r := List.forall₂_nil_left_iff.mp (hr1 ▸ hrecv)
      simp [classifyTransfers, hl, hl2, hs1, hr1, h2s, h2r]
    · have h2s := List.forall₂_nil_left_iff.mp (hs1 ▸ hsent)
      obtain ⟨r2, rs2, _, _, h2r⟩ := List.forall₂_cons_left_iff.mp (hr1 ▸ hrecv)
      simp [classifyTransfers, hl, hl2, hs1, hr1, h2s, h2r]
    · obtain ⟨s2, ss2, _, _, h2s⟩ := List.forall₂_cons_left_iff.mp (hs1 ▸ hsent)
      have h2r := List.forall₂_nil_left_iff.mp (hr1 ▸ hrecv)
      simp [classifyTransfers, hl, hl2, hs1, hr1, h2s, h2r]
    · obtain ⟨s2, ss2, _, _, h2s⟩ := List.forall₂_cons_left_iff.mp (hs1 ▸ hsent)
      obtain ⟨r2, rs2, _, _, h2r⟩ := List.forall₂_cons_left_iff.mp (hr1 ▸ hrecv)
      simp [classifyTransfers, hl, hl2, hs1, hr1, h2s, h2r]

/-- C9 witness: replacing the raw amounts of a sent and a received
transfer (same tokens, same directions) leaves the category unchanged. -/
theorem classify_ignores_amounts_witness :
    Option.map SwapResult.type (classifyTransfers txToRouter [tSent, tRecv] walletA)
      = Option.map SwapResult.type
          (classifyTransfers txToRouter [tSentBig, tRecvBig] walletA) :=
  classify_ignores_amounts txToRouter walletA [tSent, tRecv] [tSentBig, tRecvBig]
    (by refine .cons ?_ (.cons ?_ .nil) <;> exact ⟨rfl, rfl, rfl, rfl, rfl, rfl⟩)

end BaseTracker
